import Mathlib

/-
  Verification development for the image-augmentation module
  src/code/sampling/transforms.py.

  Shallow embedding conventions:
  * Python floats are modelled by exact rationals (and by real numbers where
    trigonometry from math.cos / math.sin is involved in a statement).
  * numpy 3-D arrays are modelled by the structure Arr3: three extents and a
    total value function; two arrays are considered equal (Arr3.eqv) when the
    extents agree and the values agree on all in-range indices.
  * The process-wide random source (random.uniform) is modelled by an explicit
    stream r : Nat -> Rat of unit draws together with a cursor k : Nat; a call
    random.uniform(a, b) reads one draw u = r k and yields a + (b - a) * u,
    exactly as CPython computes it, moving the cursor one step.
  * Fallible Python code (IndexError, TypeError, ValueError) is modelled with
    Except PyErr.
-/

/-- Three-by-three homogeneous transform matrices, the type all matrix
builders in transforms.py produce. -/
abbrev M3 (K : Type) := Matrix (Fin 3) (Fin 3) K

/-- Stream of unit draws standing for the process-wide random source. -/
abbrev RandStream := ℕ → ℚ

/-- Python errors the module can raise. -/
inductive PyErr where
  | indexError
  | typeError
  | valueError (msg : String)
deriving DecidableEq

/-- Fill modes accepted by apply_transform (strings "constant" and "nearest"
in the source). -/
inductive FillMode where
  | constant
  | nearest
deriving DecidableEq

/-- CPython random.uniform(a, b) returns a + (b - a) * random(); u stands for
the unit draw random(). -/
def random_uniform {K : Type} [Field K] (a b u : K) : K := a + (b - a) * u

/-- Rotation matrix built in Rotate.transform (lines 280-282); c and s stand
for math.cos(theta) and math.sin(theta). -/
def rotation_matrix {K : Type} [Field K] (c s : K) : M3 K :=
  !![c, -s, 0; s, c, 0; 0, 0, 1]

/-- Shear matrix built in Shear.transform (lines 408-410); sn and cs stand for
math.sin(shear) and math.cos(shear). -/
def shear_matrix {K : Type} [Field K] (sn cs : K) : M3 K :=
  !![1, -sn, 0; 0, cs, 0; 0, 0, 1]

/-- Zoom matrix built in Zoom.transform (lines 470-472). -/
def zoom_matrix {K : Type} [Field K] (zx zy : K) : M3 K :=
  !![zx, 0, 0; 0, zy, 0; 0, 0, 1]

/-- Translation matrix built in Translate.transform (lines 355-357). -/
def translation_matrix {K : Type} [Field K] (tx ty : K) : M3 K :=
  !![1, 0, tx; 0, 1, ty; 0, 0, 1]

/-- transform_matrix_offset_center (lines 71-77): o_x = x/2 + 0.5,
o_y = y/2 + 0.5, and the result is offset_matrix . matrix . reset_matrix. -/
def transform_matrix_offset_center (matrix : M3 ℚ) (x y : ℕ) : M3 ℚ :=
  let o_x : ℚ := (x : ℚ) / 2 + 1/2
  let o_y : ℚ := (y : ℚ) / 2 + 1/2
  let offset_matrix : M3 ℚ := !![1, 0, o_x; 0, 1, o_y; 0, 0, 1]
  let reset_matrix : M3 ℚ := !![1, 0, -o_x; 0, 1, -o_y; 0, 0, 1]
  offset_matrix * matrix * reset_matrix

/-- A 3-D numpy array: three extents and a value function. -/
structure Arr3 where
  s0 : ℕ
  s1 : ℕ
  s2 : ℕ
  val : ℕ → ℕ → ℕ → ℚ

/-- Extent of axis a (a < 3). -/
def Arr3.shapeAt (A : Arr3) (a : ℕ) : ℕ :=
  if a = 0 then A.s0 else if a = 1 then A.s1 else A.s2

/-- Index that input-axis a receives under numpy transpose with axes order
(p0, p1, p2), given output indices (i, j, k). -/
def Arr3.idxFor (p0 p1 p2 i j k a : ℕ) : ℕ :=
  if p0 = a then i else if p1 = a then j else k

/-- numpy transpose with axes order (p0, p1, p2): output axis t is input axis
p_t. -/
def Arr3.transpose (A : Arr3) (p0 p1 p2 : ℕ) : Arr3 :=
  ⟨A.shapeAt p0, A.shapeAt p1, A.shapeAt p2,
   fun i j k =>
     A.val (Arr3.idxFor p0 p1 p2 i j k 0) (Arr3.idxFor p0 p1 p2 i j k 1)
       (Arr3.idxFor p0 p1 p2 i j k 2)⟩

/-- Array equality: same extents and same values at every in-range index. -/
def Arr3.eqv (A B : Arr3) : Prop :=
  A.s0 = B.s0 ∧ A.s1 = B.s1 ∧ A.s2 = B.s2 ∧
    ∀ i < A.s0, ∀ j < A.s1, ∀ k < A.s2, A.val i j k = B.val i j k

instance (A B : Arr3) : Decidable (A.eqv B) := by
  unfold Arr3.eqv
  infer_instance

/-- Insert an element at a position of a list; appends when the position is
past the end (Python list.insert semantics). -/
def insertAt {α : Type} : ℕ → α → List α → List α
  | 0, a, l => a :: l
  | _ + 1, a, [] => [a]
  | n + 1, a, x :: l => x :: insertAt n a l

/-- numpy normalize_axis_index: a negative axis gets n added; out-of-bounds
axes raise. -/
def normalize_axis_index (ax : ℤ) (n : ℕ) : Except PyErr ℕ :=
  if -(n : ℤ) ≤ ax ∧ ax < (n : ℤ) then
    Except.ok (if ax < 0 then (ax + (n : ℤ)).toNat else ax.toNat)
  else Except.error (PyErr.valueError "axis is out of bounds for array")

/-- Axes order produced by numpy rollaxis(a, axis, start) on an n-D array:
normalize axis, add n to a negative start, require 0 <= start <= n, decrement
start when axis < start, then remove axis from (0, ..., n-1) and re-insert it
at the adjusted start. -/
def rollaxis_axes (n : ℕ) (axis start : ℤ) : Except PyErr (List ℕ) :=
  match normalize_axis_index axis n with
  | Except.error e => Except.error e
  | Except.ok a =>
    let s : ℤ := if start < 0 then start + (n : ℤ) else start
    if 0 ≤ s ∧ s ≤ (n : ℤ) then
      let s2 : ℕ := if (a : ℤ) < s then (s - 1).toNat else s.toNat
      Except.ok (insertAt s2 a ((List.range n).filter (fun b => b ≠ a)))
    else Except.error (PyErr.valueError "rollaxis start argument out of bounds")

/-- np.rollaxis on a 3-D array, as a transpose by the rollaxis axes order.
The catch-all branch is unreachable: for n = 3 the axes order always has
exactly three entries. -/
def rollaxis3 (A : Arr3) (axis start : ℤ) : Except PyErr Arr3 :=
  match rollaxis_axes 3 axis start with
  | Except.error e => Except.error e
  | Except.ok [p0, p1, p2] => Except.ok (A.transpose p0 p1 p2)
  | Except.ok _ => Except.error (PyErr.valueError "internal")

/-- Nearest-neighbour index selection of scipy order-0 resampling: the input
coordinate c selects source index floor(c + 1/2). -/
def nnidx (c : ℚ) : ℤ := ⌊c + 1/2⌋

/-- Clamp an index into [0, n-1] (scipy mode "nearest"). -/
def clampIdx (i : ℤ) (n : ℕ) : ℤ := max 0 (min i ((n : ℤ) - 1))

/-- scipy ndi.interpolation.affine_transform on one 2-D channel with order=0:
the output pixel (i, j) reads the input at coordinate A . (i, j) + b, rounded
to the nearest source index; out-of-range coordinates are filled with cval
(mode "constant") or with the nearest in-range pixel (mode "nearest"). -/
def resample2d (h w : ℕ) (f : ℕ → ℕ → ℚ) (a00 a01 a10 a11 b0 b1 : ℚ)
    (mode : FillMode) (cval : ℚ) (i j : ℕ) : ℚ :=
  let ci : ℚ := a00 * (i : ℚ) + a01 * (j : ℚ) + b0
  let cj : ℚ := a10 * (i : ℚ) + a11 * (j : ℚ) + b1
  let ii : ℤ := nnidx ci
  let jj : ℤ := nnidx cj
  if 0 ≤ ii ∧ ii < (h : ℤ) ∧ 0 ≤ jj ∧ jj < (w : ℤ) then f ii.toNat jj.toNat
  else
    match mode with
    | FillMode.constant => cval
    | FillMode.nearest => f (clampIdx ii h).toNat (clampIdx jj w).toNat

/-- Channel loop of apply_transform (lines 82-88): centre the matrix on the
two spatial extents of the channel-first array x1, split it into its 2x2
linear part and length-2 offset, and resample every channel independently. -/
def resampleChannels (x1 : Arr3) (M : M3 ℚ) (mode : FillMode) (cval : ℚ) : Arr3 :=
  let t := transform_matrix_offset_center M x1.s1 x1.s2
  ⟨x1.s0, x1.s1, x1.s2,
   fun c i j =>
     resample2d x1.s1 x1.s2 (fun a b => x1.val c a b)
       (t 0 0) (t 0 1) (t 1 0) (t 1 1) (t 0 2) (t 1 2) mode cval i j⟩

/-- apply_transform (lines 79-90): roll the channel axis to position 0, cast
to float32 (the identity in this exact-arithmetic model), resample every
channel with the centred matrix, and roll axis 0 to position channel_axis + 1.
The source default for channel_axis is -1. -/
def apply_transform (x : Arr3) (transform : M3 ℚ) (fill_mode : FillMode)
    (fill_value : ℚ) (channel_axis : ℤ) : Except PyErr Arr3 :=
  match rollaxis3 x channel_axis 0 with
  | Except.error e => Except.error e
  | Except.ok x1 =>
    rollaxis3 (resampleChannels x1 transform fill_mode fill_value) 0 (channel_axis + 1)

/-- Holds when the Except value is ok and its payload satisfies P. -/
def exceptOkAnd {α : Type} (e : Except PyErr α) (P : α → Prop) : Prop :=
  match e with
  | Except.ok a => P a
  | Except.error _ => False

instance {α : Type} (e : Except PyErr α) (P : α → Prop) [∀ a, Decidable (P a)] :
    Decidable (exceptOkAnd e P) :=
  match e with
  | Except.ok a => (inferInstance : Decidable (P a))
  | Except.error _ => (inferInstance : Decidable False)

/-- Sampling and matrix construction of Translate.transform (lines 344-357):
tx is sampled only when height_range > 0 (one draw, scaled by X.shape[0]);
ty only when width_range > 0 (one draw, scaled by X.shape[1]); otherwise the
shift is exactly 0 and no draw is consumed.  Returns the matrix and the moved
cursor. -/
def Translate_matrix (height_range width_range : ℚ) (s0 s1 : ℕ)
    (r : RandStream) (k : ℕ) : M3 ℚ × ℕ :=
  let txk : ℚ × ℕ :=
    if 0 < height_range then
      (random_uniform (-height_range) height_range (r k) * (s0 : ℚ), k + 1)
    else (0, k)
  let tyk : ℚ × ℕ :=
    if 0 < width_range then
      (random_uniform (-width_range) width_range (r txk.2) * (s1 : ℚ), txk.2 + 1)
    else (0, txk.2)
  (translation_matrix txk.1 tyk.1, tyk.2)

/-- Results a transform method can return: a bare matrix (lazy mode), a
transformed image, or an image-target pair. -/
inductive TransformOut where
  | mat (m : M3 ℚ)
  | img (x : Arr3)
  | pair (x y : Arr3)

/-- Translate.transform (lines 343-370): build the translation matrix, return
it alone when lazy, otherwise apply it to X with (fill_mode, fill_value) and,
when a target y is given, apply the same matrix to y with
(target_fill_mode, target_fill_value). -/
def Translate_transform (height_range width_range : ℚ) (fill_mode : FillMode)
    (fill_value : ℚ) (target_fill_mode : FillMode) (target_fill_value : ℚ)
    (lazy : Bool) (X : Arr3) (y : Option Arr3) (r : RandStream) (k : ℕ) :
    Except PyErr TransformOut × ℕ :=
  let sampled := Translate_matrix height_range width_range X.s0 X.s1 r k
  if lazy then (Except.ok (TransformOut.mat sampled.1), sampled.2)
  else
    match apply_transform X sampled.1 fill_mode fill_value (-1) with
    | Except.error e => (Except.error e, sampled.2)
    | Except.ok xt =>
      match y with
      | none => (Except.ok (TransformOut.img xt), sampled.2)
      | some Y =>
        match apply_transform Y sampled.1 target_fill_mode target_fill_value (-1) with
        | Except.error e => (Except.error e, sampled.2)
        | Except.ok yt => (Except.ok (TransformOut.pair xt yt), sampled.2)

/-- Matrix sampling of Zoom.transform (lines 468-472): two subscript accesses
zoom_range[0] and zoom_range[1] (an IndexError when the stored sequence has
fewer than two elements, deferred from construction to this first call), then
two independent uniform draws zx and zy. -/
def Zoom_matrix (zoom_range : List ℚ) (r : RandStream) (k : ℕ) :
    Except PyErr (M3 ℚ × ℕ) :=
  match zoom_range[0]?, zoom_range[1]? with
  | some lo, some hi =>
    Except.ok (zoom_matrix (random_uniform lo hi (r k)) (random_uniform lo hi (r (k + 1))), k + 2)
  | _, _ => Except.error PyErr.indexError

/-- Python value passed to Zoom as zoom_range: a bare number, a list, or a
tuple. -/
inductive PyZoomArg where
  | scalar (q : ℚ)
  | pylist (l : List ℚ)
  | pytuple (l : List ℚ)

/-- Zoom.__init__ validation (lines 458-460): raise ValueError when zoom_range
is neither a list nor a tuple; otherwise store the sequence as given.  No
check on length, ordering or positivity is performed. -/
def Zoom_init : PyZoomArg → Except PyErr (List ℚ)
  | PyZoomArg.scalar _ =>
      Except.error (PyErr.valueError "zoom_range must be tuple or list with 2 values")
  | PyZoomArg.pylist l => Except.ok l
  | PyZoomArg.pytuple l => Except.ok l

/-- The affine sub-transform objects Affine and AffineCompose hold.  These
classes define an __init__ and a transform method but no __call__ method. -/
inductive AffineBuilder where
  | rotate (rotation_range : ℚ)
  | translate (height_range width_range : ℚ)
  | shear (shear_range : ℚ)
  | zoom (zoom_range : List ℚ)

/-- Affine.transform (lines 168-184).  The first statement evaluates
self.transforms[0], which raises IndexError when the configured list is
empty.  For a non-empty list that first statement then calls the builder
object itself, self.transforms[0](X); the builder classes Rotate, Translate,
Shear and Zoom define a transform method but no __call__ method, so the call
raises TypeError before any matrix is built: the matrix accumulation with
np.dot and both apply_transform calls on lines 171-184 are unreachable. -/
def Affine_transform (transforms : List AffineBuilder) (fill_mode : FillMode)
    (fill_value : ℚ) (target_fill_mode : FillMode) (target_fill_value : ℚ)
    (X : Arr3) (y : Option Arr3) : Except PyErr TransformOut :=
  match transforms with
  | [] => Except.error PyErr.indexError
  | _ :: _ => Except.error PyErr.typeError

/-- AffineCompose.transform (lines 224-240): the body is identical to
Affine.transform, with the same IndexError on an empty transforms list and
the same TypeError from calling a non-callable builder object on a non-empty
list. -/
def AffineCompose_transform (transforms : List AffineBuilder) (fill_mode : FillMode)
    (fill_value : ℚ) (target_fill_mode : FillMode) (target_fill_value : ℚ)
    (X : Arr3) (y : Option Arr3) : Except PyErr TransformOut :=
  match transforms with
  | [] => Except.error PyErr.indexError
  | _ :: _ => Except.error PyErr.typeError

/-- One-hot row of length n with a 1 at position i. -/
def onehot (n : ℕ) (i : ℕ) : List ℚ :=
  (List.range n).map (fun j => if j = i then 1 else 0)

/-- ToCategorical.transform (lines 52-59) with explicit state passing for the
num_classes attribute.  The input is flattened to integers; when the stored
num_classes is falsy (None or 0) it is REASSIGNED to max(X) + 1 (np.max raises
on an empty array); np.zeros raises on a negative class count; the fancy
assignment categorical[arange(n), X] = 1 wraps negative indices and raises
IndexError on out-of-range ones.  Returns the one-hot matrix together with the
value of the num_classes attribute after the call. -/
def ToCategorical_transform (num_classes : Option ℤ) (X : List ℤ) :
    Except PyErr (List (List ℚ) × Option ℤ) :=
  let inferred : Except PyErr ℤ :=
    match X.max? with
    | none => Except.error (PyErr.valueError "zero-size array to reduction operation")
    | some mx => Except.ok (mx + 1)
  let ncE : Except PyErr ℤ :=
    match num_classes with
    | none => inferred
    | some m => if m = 0 then inferred else Except.ok m
  match ncE with
  | Except.error e => Except.error e
  | Except.ok nc =>
    if nc < 0 then Except.error (PyErr.valueError "negative dimensions are not allowed")
    else if X.all (fun v => decide (-nc ≤ v) && decide (v < nc)) then
      Except.ok
        (X.map (fun v => onehot nc.toNat (if v < 0 then (nc + v).toNat else v.toNat)),
         some nc)
    else Except.error PyErr.indexError

/-- Concrete 1 x 2 x 3 test image. -/
def img123 : Arr3 := ⟨1, 2, 3, fun i j k => (i : ℚ) + 2 * (j : ℚ) + 4 * (k : ℚ)⟩

/-- Concrete 1 x 1 x 2 test image with channel values 5 and 7. -/
def img112 : Arr3 := ⟨1, 1, 2, fun _ _ k => if k = 0 then 5 else 7⟩

/-- Constant random stream used by concrete witnesses. -/
def rthird : RandStream := fun _ => 1/3

/-! Helper lemmas. -/

theorem translation_mul (a b c d : ℚ) :
    translation_matrix a b * translation_matrix c d = translation_matrix (a + c) (b + d) := by
  simp only [translation_matrix, Matrix.mul_fin_three]
  ext i j
  fin_cases i <;> fin_cases j <;> simp <;> ring

theorem translation_zero : translation_matrix (0 : ℚ) 0 = 1 := by
  simp only [translation_matrix, Matrix.one_fin_three]

theorem rotation_matrix_one : rotation_matrix (1 : ℝ) 0 = 1 := by
  simp only [rotation_matrix, Matrix.one_fin_three, neg_zero]

theorem shear_matrix_one : shear_matrix (0 : ℝ) 1 = 1 := by
  simp only [shear_matrix, Matrix.one_fin_three, neg_zero]

theorem zoom_matrix_one : zoom_matrix (1 : ℚ) 1 = 1 := by
  simp only [zoom_matrix, Matrix.one_fin_three]

theorem tmoc_eq (M : M3 ℚ) (x y : ℕ) :
    transform_matrix_offset_center M x y
      = translation_matrix ((x : ℚ) / 2 + 1/2) ((y : ℚ) / 2 + 1/2) * M
          * translation_matrix (-((x : ℚ) / 2 + 1/2)) (-((y : ℚ) / 2 + 1/2)) := rfl

theorem tmoc_one (h w : ℕ) : transform_matrix_offset_center 1 h w = 1 := by
  rw [tmoc_eq, mul_one, translation_mul]
  have h1 : ((h : ℚ) / 2 + 1/2) + -((h : ℚ) / 2 + 1/2) = 0 := by ring
  have h2 : ((w : ℚ) / 2 + 1/2) + -((w : ℚ) / 2 + 1/2) = 0 := by ring
  rw [h1, h2, translation_zero]

theorem nnidx_natCast (n : ℕ) : nnidx (n : ℚ) = (n : ℤ) := by
  unfold nnidx
  rw [Int.floor_eq_iff]
  constructor
  · push_cast
    linarith
  · push_cast
    linarith

theorem resample2d_id (h w : ℕ) (f : ℕ → ℕ → ℚ) (mode : FillMode) (cval : ℚ)
    (i j : ℕ) (hi : i < h) (hj : j < w) :
    resample2d h w f 1 0 0 1 0 0 mode cval i j = f i j := by
  simp only [resample2d]
  rw [show (1 : ℚ) * (i : ℚ) + 0 * (j : ℚ) + 0 = ((i : ℕ) : ℚ) by ring]
  rw [show (0 : ℚ) * (i : ℚ) + 1 * (j : ℚ) + 0 = ((j : ℕ) : ℚ) by ring]
  rw [nnidx_natCast, nnidx_natCast]
  have hcond : 0 ≤ ((i : ℕ) : ℤ) ∧ ((i : ℕ) : ℤ) < (h : ℤ) ∧ 0 ≤ ((j : ℕ) : ℤ) ∧ ((j : ℕ) : ℤ) < (w : ℤ) :=
    ⟨Int.ofNat_nonneg i, by exact_mod_cast hi, Int.ofNat_nonneg j, by exact_mod_cast hj⟩
  rw [if_pos hcond]
  simp

/-! Claim theorems. -/

/-- Claim C1 (evidence of the code bug): on the concrete 1 x 2 x 3 image and
the identity matrix, apply_transform with the source default channel_axis = -1
returns an array of shape (3, 1, 2): the final np.rollaxis(x, 0,
channel_axis + 1) is np.rollaxis(x, 0, 0), a no-op, so the channel axis is
left at position 0 instead of being restored, and the output shape differs
from the input shape (1, 2, 3) claimed by the output contract. -/
theorem apply_transform_default_axis_moves_channels_first :
    exceptOkAnd (apply_transform img123 1 FillMode.constant 0 (-1))
      (fun z => z.s0 = 3 ∧ z.s1 = 1 ∧ z.s2 = 2)
    ∧ img123.s0 = 1 ∧ img123.s1 = 2 ∧ img123.s2 = 3 := by
  decide

/-- Claim C2 (counterexample): Zoom accepts at construction time both the
unordered pair (2, 1) (low greater than high) and the 1-element tuple (5,),
contradicting the claim that such zoom_range values raise a configuration
error at construction. -/
theorem Zoom_init_accepts_invalid_ranges :
    Zoom_init (PyZoomArg.pytuple [2, 1]) = Except.ok [2, 1]
    ∧ Zoom_init (PyZoomArg.pytuple [5]) = Except.ok [5] :=
  ⟨rfl, rfl⟩

/-- Claim C2 (amended): the constructor of Zoom raises ValueError exactly when
zoom_range is neither a list nor a tuple; every list or tuple is accepted
without any check of length, ordering or positivity, and a stored sequence
with fewer than two elements fails only at the first transform call, with an
IndexError from the subscript zoom_range[1]. -/
theorem Zoom_init_checks_only_sequence_type (l : List ℚ) (q : ℚ)
    (r : RandStream) (k : ℕ) :
    Zoom_init (PyZoomArg.pylist l) = Except.ok l
    ∧ Zoom_init (PyZoomArg.pytuple l) = Except.ok l
    ∧ Zoom_init (PyZoomArg.scalar q)
        = Except.error (PyErr.valueError "zoom_range must be tuple or list with 2 values")
    ∧ (l.length ≤ 1 → Zoom_matrix l r k = Except.error PyErr.indexError) := by
  refine ⟨rfl, rfl, rfl, fun hl => ?_⟩
  cases l with
  | nil => rfl
  | cons a t =>
    cases t with
    | nil => rfl
    | cons b t2 => simp at hl

/-- Witness for the amended C2 theorem at the concrete 1-element list (7,). -/
theorem Zoom_init_checks_only_sequence_type_witness :
    Zoom_init (PyZoomArg.pylist [7]) = Except.ok [7]
    ∧ Zoom_matrix [7] rthird 0 = Except.error PyErr.indexError :=
  ⟨(Zoom_init_checks_only_sequence_type [7] 0 rthird 0).1,
   (Zoom_init_checks_only_sequence_type [7] 0 rthird 0).2.2.2 (by decide)⟩

/-- Claim C3 (evidence of the code bug): with a target image supplied and a
single Translate sub-transform, both Affine.transform and
AffineCompose.transform raise TypeError: the first statement of each calls
the builder object itself, tform(X), but the builder classes define a
transform method and no __call__ method, so no composed matrix is ever built
or applied to either image. -/
theorem affine_transform_with_target_raises_type_error :
    Affine_transform [AffineBuilder.translate (1/10) (1/10)] FillMode.constant 0
        FillMode.nearest 0 img123 (some img123) = Except.error PyErr.typeError
    ∧ AffineCompose_transform [AffineBuilder.translate (1/10) (1/10)] FillMode.constant 0
        FillMode.nearest 0 img123 (some img123) = Except.error PyErr.typeError :=
  ⟨rfl, rfl⟩

/-- Claim C4 (evidence of the code bug): with exactly one configured
sub-transform, Affine.transform and AffineCompose.transform do not return the
single matrix applied without error as claimed: the very first statement
calls the non-callable builder object and raises TypeError, so the
accumulation loop with np.dot is unreachable. -/
theorem affine_transform_single_builder_raises_type_error :
    Affine_transform [AffineBuilder.rotate 10] FillMode.constant 0
        FillMode.nearest 0 img123 none = Except.error PyErr.typeError
    ∧ AffineCompose_transform [AffineBuilder.rotate 10] FillMode.constant 0
        FillMode.nearest 0 img123 none = Except.error PyErr.typeError :=
  ⟨rfl, rfl⟩

/-- Claim C5: calling transform on an Affine or AffineCompose whose
configured transforms list is empty raises an error (the subscript
self.transforms[0] raises IndexError before anything else runs) and in
particular never returns a transformed image. -/
theorem affine_transform_empty_raises_index_error (fm : FillMode) (fv : ℚ)
    (tfm : FillMode) (tfv : ℚ) (X : Arr3) (y : Option Arr3) :
    Affine_transform [] fm fv tfm tfv X y = Except.error PyErr.indexError
    ∧ AffineCompose_transform [] fm fv tfm tfv X y = Except.error PyErr.indexError
    ∧ ∀ out : TransformOut, Affine_transform [] fm fv tfm tfv X y ≠ Except.ok out :=
  ⟨rfl, rfl, fun _ h => Except.noConfusion h⟩

/-- Claim C6: transform_matrix_offset_center(M, height, width) equals
T . M . Tinv where T is the homogeneous translation by
(o_x, o_y) = (height/2 + 1/2, width/2 + 1/2) and Tinv the translation by
(-o_x, -o_y); moreover T . Tinv is the identity, so Tinv deserves its name. -/
theorem transform_matrix_offset_center_is_conjugation (M : M3 ℚ) (x y : ℕ) :
    transform_matrix_offset_center M x y
      = translation_matrix ((x : ℚ) / 2 + 1/2) ((y : ℚ) / 2 + 1/2) * M
          * translation_matrix (-((x : ℚ) / 2 + 1/2)) (-((y : ℚ) / 2 + 1/2))
    ∧ translation_matrix ((x : ℚ) / 2 + 1/2) ((y : ℚ) / 2 + 1/2)
        * translation_matrix (-((x : ℚ) / 2 + 1/2)) (-((y : ℚ) / 2 + 1/2)) = 1 := by
  refine ⟨tmoc_eq M x y, ?_⟩
  rw [translation_mul]
  have h1 : ((x : ℚ) / 2 + 1/2) + -((x : ℚ) / 2 + 1/2) = 0 := by ring
  have h2 : ((y : ℚ) / 2 + 1/2) + -((y : ℚ) / 2 + 1/2) = 0 := by ring
  rw [h1, h2, translation_zero]

/-- Entries of the translation matrix that hold the two shifts. -/
theorem translation_matrix_shifts (tx ty : ℚ) :
    (translation_matrix tx ty) 0 2 = tx ∧ (translation_matrix tx ty) 1 2 = ty :=
  ⟨rfl, rfl⟩

/-- Claim C8: in Translate.transform, a zero height (or width) fraction gives
exactly zero shift on that axis and consumes no draw from the random source;
a positive fraction gives a shift equal to a uniform draw from (-f, f) scaled
by the matching image extent; the cursor moves by exactly one draw per
strictly positive fraction. -/
theorem translate_zero_range_no_sampling (hr wr : ℚ) (s0 s1 : ℕ)
    (r : RandStream) (k : ℕ) :
    (hr = 0 → (Translate_matrix hr wr s0 s1 r k).1 0 2 = 0)
    ∧ (0 < hr → (Translate_matrix hr wr s0 s1 r k).1 0 2
        = random_uniform (-hr) hr (r k) * (s0 : ℚ))
    ∧ (wr = 0 → (Translate_matrix hr wr s0 s1 r k).1 1 2 = 0)
    ∧ (0 < wr → (Translate_matrix hr wr s0 s1 r k).1 1 2
        = random_uniform (-wr) wr (r (k + if 0 < hr then 1 else 0)) * (s1 : ℚ))
    ∧ (Translate_matrix hr wr s0 s1 r k).2
        = k + ((if 0 < hr then 1 else 0) + (if 0 < wr then 1 else 0)) := by
  refine ⟨fun h => ?_, fun h => ?_, fun h => ?_, fun h => ?_, ?_⟩
  · subst h
    by_cases h1 : 0 < wr <;>
      simp [Translate_matrix, h1, (translation_matrix_shifts _ _).1]
  · by_cases h1 : 0 < wr <;>
      simp [Translate_matrix, h, h1, (translation_matrix_shifts _ _).1]
  · subst h
    by_cases h0 : 0 < hr <;>
      simp [Translate_matrix, h0, (translation_matrix_shifts _ _).2]
  · by_cases h0 : 0 < hr <;>
      simp [Translate_matrix, h, h0, (translation_matrix_shifts _ _).2]
  · by_cases h0 : 0 < hr <;> by_cases h1 : 0 < wr <;>
      simp [Translate_matrix, h0, h1]

/-- Witness for C8: zero height fraction, width fraction one half, extents
4 and 6, the constant stream of draws 1/3, cursor 0. -/
theorem translate_zero_range_no_sampling_witness :
    (Translate_matrix 0 (1/2) 4 6 rthird 0).1 0 2 = 0
    ∧ (Translate_matrix 0 (1/2) 4 6 rthird 0).1 1 2
        = random_uniform (-(1/2)) (1/2) (rthird (0 + if (0:ℚ) < 0 then 1 else 0)) * (6 : ℚ)
    ∧ (Translate_matrix 0 (1/2) 4 6 rthird 0).2
        = 0 + ((if (0:ℚ) < 0 then 1 else 0) + (if (0:ℚ) < 1/2 then 1 else 0)) :=
  ⟨(translate_zero_range_no_sampling 0 (1/2) 4 6 rthird 0).1 rfl,
   (translate_zero_range_no_sampling 0 (1/2) 4 6 rthird 0).2.2.2.1 (by norm_num),
   (translate_zero_range_no_sampling 0 (1/2) 4 6 rthird 0).2.2.2.2⟩

/-- Claim C10: a negative fraction on either axis behaves exactly like a zero
one: the strict positivity test of that axis fails, so the whole Translate
matrix computation coincides with the one where that fraction is 0 — zero
shift on that axis, no draw consumed for it and no error. -/
theorem translate_negative_range_acts_as_zero (hr wr : ℚ) (s0 s1 : ℕ)
    (r : RandStream) (k : ℕ) :
    (hr < 0 → Translate_matrix hr wr s0 s1 r k = Translate_matrix 0 wr s0 s1 r k
      ∧ (Translate_matrix hr wr s0 s1 r k).1 0 2 = 0)
    ∧ (wr < 0 → Translate_matrix hr wr s0 s1 r k = Translate_matrix hr 0 s0 s1 r k
      ∧ (Translate_matrix hr wr s0 s1 r k).1 1 2 = 0) := by
  constructor
  · intro h
    have hn : ¬ 0 < hr := not_lt.mpr h.le
    constructor
    · simp [Translate_matrix, hn]
    · simp [Translate_matrix, hn, (translation_matrix_shifts _ _).1]
  · intro h
    have hn : ¬ 0 < wr := not_lt.mpr h.le
    constructor
    · simp [Translate_matrix, hn]
    · simp [Translate_matrix, hn, (translation_matrix_shifts _ _).2]

/-- Witness for C10 at the concrete negative fractions -1/3 (height axis,
width fraction 1/2) and -2/5 (width axis, height fraction 1/4). -/
theorem translate_negative_range_acts_as_zero_witness :
    (Translate_matrix (-(1/3)) (1/2) 4 6 rthird 0 = Translate_matrix 0 (1/2) 4 6 rthird 0
      ∧ (Translate_matrix (-(1/3)) (1/2) 4 6 rthird 0).1 0 2 = 0)
    ∧ (Translate_matrix (1/4) (-(2/5)) 4 6 rthird 0 = Translate_matrix (1/4) 0 4 6 rthird 0
      ∧ (Translate_matrix (1/4) (-(2/5)) 4 6 rthird 0).1 1 2 = 0) :=
  ⟨(translate_negative_range_acts_as_zero (-(1/3)) (1/2) 4 6 rthird 0).1 (by norm_num),
   (translate_negative_range_acts_as_zero (1/4) (-(2/5)) 4 6 rthird 0).2 (by norm_num)⟩

/-- Claim C9 (counterexample): ToCategorical constructed with num_classes
unset has its num_classes attribute set to 3 by a call on the input
(0, 2, 1): the configuration visible after the call, some 3, differs from the
construction-time configuration none, so state written during transform does
survive to the next call. -/
theorem to_categorical_mutates_num_classes :
    ToCategorical_transform none [0, 2, 1]
      = Except.ok ([[1, 0, 0], [0, 0, 1], [0, 1, 0]], some 3)
    ∧ some (3 : ℤ) ≠ (none : Option ℤ) := by
  constructor
  · rfl
  · simp

/-- Claim C9 (amended): ToCategorical with a nonzero stored num_classes never
changes it; with num_classes unset, a successful call stores the inferred
value max(X) + 1 in the attribute, and that value persists to later calls.
All other transforms in the module assign to their attributes only inside
__init__, so their configuration is fixed at construction. -/
theorem to_categorical_num_classes_state (m : ℤ) (X : List ℤ) (hm : m ≠ 0) :
    ((ToCategorical_transform (some m) X).toOption.elim True (fun p => p.2 = some m))
    ∧ ((ToCategorical_transform none X).toOption.elim True
        (fun p => p.2 = some (X.max?.getD 0 + 1))) := by
  constructor
  · simp only [ToCategorical_transform, if_neg hm]
    split
    · simp [Except.toOption]
    · split <;> simp [Except.toOption]
  · simp only [ToCategorical_transform]
    cases hx : X.max? with
    | none => simp [Except.toOption]
    | some mx =>
      split
      next e heq => simp at heq
      next nc heq =>
        simp at heq
        subst heq
        split
        · simp [Except.toOption]
        · split <;> simp [Except.toOption]

/-- Witness for the amended C9 theorem: stored class count 3 is kept, and an
unset class count becomes max((0,2,1)) + 1 = 3. -/
theorem to_categorical_num_classes_state_witness :
    ((ToCategorical_transform (some 3) [0, 2, 1]).toOption.elim True
        (fun p => p.2 = some 3))
    ∧ ((ToCategorical_transform none [0, 2, 1]).toOption.elim True
        (fun p => p.2 = some (([0, 2, 1] : List ℤ).max?.getD 0 + 1))) :=
  to_categorical_num_classes_state 3 [0, 2, 1] (by decide)

/-- Claim C7 (counterexample): with the source default channel_axis = -1,
apply_transform with the identity matrix does NOT return an image equal to
the input: on the concrete 1 x 1 x 2 image the output has shape (2, 1, 1),
because the final rollaxis call fails to restore the channel axis. -/
theorem apply_transform_identity_default_axis_alters_layout :
    ¬ exceptOkAnd (apply_transform img112 1 FillMode.constant 0 (-1))
        (fun z => z.eqv img112) := by
  decide

/-- Claim C7 (amended): builders configured with zero ranges produce the
identity matrix — Rotate at rotation_range 0 and Shear at shear_range 0 for
every unit draw, Translate at ranges (0, 0) for every stream and cursor
(consuming no draw), Zoom at zoom_range (1, 1) for every stream (consuming
two draws) — any list of identity matrices multiplies to the identity, and
apply_transform with the identity matrix and the channel axis given as the
explicit nonnegative index 2 returns an image equal to the input (exactly,
since the float32 cast is the identity in this exact-arithmetic model).
Under the source default channel_axis = -1 the values are preserved but the
channel axis is left at position 0, so the output is not equal to the input. -/
theorem zero_ranges_compose_to_identity_transform :
    (∀ u : ℝ, rotation_matrix (Real.cos (Real.pi / 180 * random_uniform (-(0:ℝ)) 0 u))
        (Real.sin (Real.pi / 180 * random_uniform (-(0:ℝ)) 0 u)) = 1)
    ∧ (∀ u : ℝ, shear_matrix (Real.sin (random_uniform (-(0:ℝ)) 0 u))
        (Real.cos (random_uniform (-(0:ℝ)) 0 u)) = 1)
    ∧ (∀ (s0 s1 : ℕ) (r : RandStream) (k : ℕ), Translate_matrix 0 0 s0 s1 r k = (1, k))
    ∧ (∀ (r : RandStream) (k : ℕ), Zoom_matrix [1, 1] r k = Except.ok (1, k + 2))
    ∧ (∀ Ms : List (M3 ℚ), (∀ M ∈ Ms, M = 1) → Ms.prod = 1)
    ∧ (∀ (x : Arr3) (fm : FillMode) (cv : ℚ),
        exceptOkAnd (apply_transform x 1 fm cv 2) (fun z => z.eqv x)) := by
  refine ⟨?_, ?_, ?_, ?_, ?_, ?_⟩
  · intro u
    have h : random_uniform (-(0:ℝ)) 0 u = 0 := by simp [random_uniform]
    rw [h, mul_zero, Real.cos_zero, Real.sin_zero]
    exact rotation_matrix_one
  · intro u
    have h : random_uniform (-(0:ℝ)) 0 u = 0 := by simp [random_uniform]
    rw [h, Real.cos_zero, Real.sin_zero]
    exact shear_matrix_one
  · intro s0 s1 r k
    have h : Translate_matrix 0 0 s0 s1 r k = (translation_matrix 0 0, k) := by
      simp [Translate_matrix]
    rw [h, translation_zero]
  · intro r k
    have h : ∀ u : ℚ, random_uniform 1 1 u = 1 := by
      intro u
      simp [random_uniform]
    show Except.ok (zoom_matrix (random_uniform 1 1 (r k)) (random_uniform 1 1 (r (k + 1))), k + 2)
      = Except.ok ((1 : M3 ℚ), k + 2)
    rw [h, h, zoom_matrix_one]
  · intro Ms
    induction Ms with
    | nil =>
      intro _
      simp
    | cons a t ih =>
      intro h
      rw [List.prod_cons, h a (List.mem_cons_self a t),
          ih (fun M hM => h M (List.mem_cons_of_mem a hM)), one_mul]
  · intro x fm cv
    have happ : apply_transform x 1 fm cv 2
        = Except.ok ((resampleChannels (x.transpose 2 0 1) 1 fm cv).transpose 1 2 0) := rfl
    rw [happ]
    show ((resampleChannels (x.transpose 2 0 1) 1 fm cv).transpose 1 2 0).eqv x
    refine ⟨rfl, rfl, rfl, ?_⟩
    intro i hi j hj k hk
    show resample2d x.s0 x.s1 (fun a b => x.val a b k)
        (transform_matrix_offset_center 1 x.s0 x.s1 0 0)
        (transform_matrix_offset_center 1 x.s0 x.s1 0 1)
        (transform_matrix_offset_center 1 x.s0 x.s1 1 0)
        (transform_matrix_offset_center 1 x.s0 x.s1 1 1)
        (transform_matrix_offset_center 1 x.s0 x.s1 0 2)
        (transform_matrix_offset_center 1 x.s0 x.s1 1 2) fm cv i j = x.val i j k
    rw [tmoc_one]
    rw [show (1 : M3 ℚ) 0 0 = 1 from rfl, show (1 : M3 ℚ) 0 1 = 0 from rfl,
        show (1 : M3 ℚ) 1 0 = 0 from rfl, show (1 : M3 ℚ) 1 1 = 1 from rfl,
        show (1 : M3 ℚ) 0 2 = 0 from rfl, show (1 : M3 ℚ) 1 2 = 0 from rfl]
    exact resample2d_id x.s0 x.s1 (fun a b => x.val a b k) fm cv i j hi hj

/-- Witness for the amended C7 theorem: the two-element identity list, a
concrete Translate call, and apply_transform on the concrete 1 x 1 x 2 image
with explicit channel axis 2. -/
theorem zero_ranges_compose_to_identity_transform_witness :
    ([(1 : M3 ℚ), 1].prod = 1)
    ∧ Translate_matrix 0 0 4 6 rthird 0 = (1, 0)
    ∧ exceptOkAnd (apply_transform img112 1 FillMode.constant 0 2)
        (fun z => z.eqv img112) :=
  ⟨zero_ranges_compose_to_identity_transform.2.2.2.2.1 [1, 1]
      (by intro M hM; simp only [List.mem_cons, List.not_mem_nil, or_false] at hM;
          rcases hM with rfl | rfl <;> rfl),
   zero_ranges_compose_to_identity_transform.2.2.1 4 6 rthird 0,
   zero_ranges_compose_to_identity_transform.2.2.2.2.2 img112 FillMode.constant 0⟩
